import Mathlib

/-!
Shallow embedding of the Mesh transaction-builder core
(`packages/mesh-transaction/src/mesh-tx-builder/tx-builder-core.ts`).

Conventions of the embedding:
* TypeScript discriminated unions (`type` field) become Lean inductives.
* Optional TS fields become `Option`.
* A thrown `Error` is modelled by an operation result of type
  `Option String × MeshTxBuilderCore`: the first component carries the error
  message (`none` means normal return), the second component is the builder
  state at the moment the operation returned or threw.  This keeps the
  mutations performed before a throw observable, exactly as in the source
  where `this` stays mutated after an exception.
* Asset quantities and mint amounts are decimal strings in the source and
  are converted with `Number(...)` wherever arithmetic happens; they are
  modelled as integers.
-/

set_option autoImplicit false

namespace Mesh

/-- Plutus language version (`LanguageVersion` in `@meshsdk/common`). -/
inductive LanguageVersion where
  | V1
  | V2
  | V3
deriving DecidableEq, Repr

/-- An asset: unit (policy id ++ hex asset name, or `"lovelace"`) and
quantity.  Quantities are decimal strings in the source, modelled as
integers. -/
structure Asset where
  unit : String
  quantity : Int
deriving DecidableEq, Repr

/-- The `TxInParameter` record: reference plus optional amount/address. -/
structure TxInParameter where
  txHash : String
  txIndex : Nat
  amount : Option (List Asset) := none
  address : Option String := none
deriving DecidableEq, Repr

/-- Plutus `Data` values (the `Mesh` content encoding). -/
inductive Data where
  | integer (i : Int)
  | bytes (b : String)
  | constr (tag : Nat) (fields : List Data)
  | list (items : List Data)
  | mapData (entries : List (Data × Data))
deriving Repr

/-- `BuilderData`: tagged union of the three data encodings.  `JSON` objects
are serialized with the external big-integer-preserving `JSONBig.stringify`;
raw JSON objects are modelled by their serialized string. -/
inductive BuilderData where
  | mesh (content : Data)
  | json (content : String)
  | cbor (content : String)
deriving Repr

/-- The `type` selector argument (`BuilderData["type"]`) of the data-casting
operations. -/
inductive BuilderDataType where
  | Mesh
  | JSON
  | CBOR
deriving DecidableEq, Repr

/-- The `BuilderData["content"]` argument union (`Data | object | string`).
Raw JSON objects are modelled by their big-integer-preserving
stringification, since `JSONBig` is an external collaborator. -/
inductive RawContent where
  | ofData (d : Data)
  | ofString (s : String)
deriving Repr

/-- The unchecked TS cast `content as Data` (only exercised with
`type = "Mesh"`, where callers pass `Data`). -/
def RawContent.asData : RawContent → Data
  | .ofData d => d
  | .ofString s => .bytes s

/-- The unchecked TS cast `content as string` (only exercised with
`type = "JSON" | "CBOR"`, where callers pass strings). -/
def RawContent.asString : RawContent → String
  | .ofData _ => ""
  | .ofString s => s

/-- Execution-unit budget `{mem, steps}`; non-negative integers. -/
structure Budget where
  mem : Nat
  steps : Nat
deriving DecidableEq, Repr

/-- Modelled from the spec: `DEFAULT_REDEEMER_BUDGET`, "a large
pre-configured `{mem, steps}`" constant supplied by `@meshsdk/common`
(not under `src/`). -/
def DEFAULT_REDEEMER_BUDGET : Budget :=
  { mem := 10000000, steps := 10000000000 }

/-- A redeemer: data plus execution-unit budget. -/
structure Redeemer where
  data : BuilderData
  exUnits : Budget
deriving Repr

/-- A Plutus script source: provided inline CBOR (with version) or a
reference UTxO.  `mintTxInReference` assigns a possibly-undefined version,
so the inline version is optional. -/
inductive ScriptSource where
  | provided (code : String) (version : LanguageVersion)
  | inline (txHash : String) (txIndex : Nat) (scriptHash : Option String)
      (version : Option LanguageVersion) (scriptSize : String)
deriving DecidableEq, Repr

/-- A native (simple) script source. -/
inductive SimpleScriptSource where
  | provided (scriptCode : String)
  | inline (txHash : String) (txIndex : Nat) (simpleScriptHash : Option String)
deriving DecidableEq, Repr

/-- A datum source: provided data or inline at a UTxO. -/
inductive DatumSource where
  | provided (data : BuilderData)
  | inline (txHash : String) (txIndex : Nat)
deriving Repr

/-- The `scriptTxIn` record of a Plutus `Script` input: all three fields
start empty (`txIn` opens a `Script` input with `scriptTxIn: {}`). -/
structure ScriptTxInParameter where
  scriptSource : Option ScriptSource := none
  datumSource : Option DatumSource := none
  redeemer : Option Redeemer := none
deriving Repr

/-- The `simpleScriptTxIn` record of a `SimpleScript` input. -/
structure SimpleScriptTxInParameter where
  scriptSource : Option SimpleScriptSource := none
deriving DecidableEq, Repr

/-- `TxIn`: tagged union over `PubKey`, `SimpleScript` and (Plutus)
`Script` inputs. -/
inductive TxIn where
  | pubKey (txIn : TxInParameter)
  | simpleScript (txIn : TxInParameter)
      (simpleScriptTxIn : SimpleScriptTxInParameter)
  | script (txIn : TxInParameter) (scriptTxIn : ScriptTxInParameter)
deriving Repr

/-- The common `txIn` field of every `TxIn` variant. -/
def TxIn.txIn : TxIn → TxInParameter
  | .pubKey p => p
  | .simpleScript p _ => p
  | .script p _ => p

/-- `PubKeyTxIn` (collaterals are always pub-key). -/
structure PubKeyTxIn where
  txIn : TxInParameter
deriving DecidableEq, Repr

/-- A reference input `{txHash, txIndex}`. -/
structure RefTxIn where
  txHash : String
  txIndex : Nat
deriving DecidableEq, Repr

/-- Mint type discriminator. -/
inductive MintItemType where
  | Native
  | Plutus
deriving DecidableEq, Repr

/-- A mint script source is either a native script source or a Plutus
script source (TS union `SimpleScriptSource | ScriptSource`). -/
inductive MintScriptSource where
  | simple (s : SimpleScriptSource)
  | plutus (s : ScriptSource)
deriving DecidableEq, Repr

/-- A `MintItem`; the pair `(policyId, assetName)` forms the minted unit.
The amount is a decimal string in the source, modelled as an integer. -/
structure MintItem where
  type : MintItemType
  policyId : String
  assetName : String
  amount : Int
  scriptSource : Option MintScriptSource := none
  redeemer : Option Redeemer := none
deriving Repr

/-- `Withdrawal`: tagged union over pub-key, simple-script and Plutus
script withdrawals. -/
inductive Withdrawal where
  | pubKeyWithdrawal (address : String) (coin : String)
  | simpleScriptWithdrawal (address : String) (coin : String)
      (scriptSource : Option SimpleScriptSource)
  | scriptWithdrawal (address : String) (coin : String)
      (scriptSource : Option ScriptSource) (redeemer : Option Redeemer)
deriving Repr

/-- Pool registration parameters; their fields are irrelevant to the
builder core, which passes them through. -/
structure PoolParams where
  poolId : String
deriving DecidableEq, Repr

/-- Certificate payloads. -/
inductive CertType where
  | registerPool (poolParams : PoolParams)
  | registerStake (stakeKeyAddress : String)
  | delegateStake (stakeKeyAddress : String) (poolId : String)
  | deregisterStake (stakeKeyAddress : String)
  | retirePool (poolId : String) (epoch : Nat)
deriving DecidableEq, Repr

/-- `Certificate`: tagged union over basic, simple-script and Plutus
script certificates. -/
inductive Certificate where
  | basic (certType : CertType)
  | simpleScriptCertificate (certType : CertType)
      (simpleScriptSource : SimpleScriptSource)
  | scriptCertificate (certType : CertType) (scriptSource : ScriptSource)
      (redeemer : Option Redeemer)
deriving Repr

/-- The common `certType` field of every certificate variant. -/
def Certificate.certType : Certificate → CertType
  | .basic c => c
  | .simpleScriptCertificate c _ => c
  | .scriptCertificate c _ _ => c

/-- An output datum: hash or inline, with its data. -/
inductive OutputDatum where
  | hashDatum (data : BuilderData)
  | inlineDatum (data : BuilderData)
deriving Repr

/-- A reference script attached to an output. -/
structure RefScript where
  code : String
  version : LanguageVersion
deriving DecidableEq, Repr

/-- A transaction output. -/
structure Output where
  address : String
  amount : List Asset
  datum : Option OutputDatum := none
  referenceScript : Option RefScript := none
deriving Repr

/-- A metadata entry (the metadata value is stored stringified). -/
structure Metadata where
  tag : String
  metadata : String
deriving DecidableEq, Repr

/-- The validity range of the transaction. -/
structure ValidityRange where
  invalidBefore : Option Nat := none
  invalidHereafter : Option Nat := none
deriving DecidableEq, Repr

/-- UTxO selection strategies. -/
inductive UtxoSelectionStrategy where
  | largestFirst
  | largestFirstMultiAsset
  | keepRelevant
  | experimental
deriving DecidableEq, Repr

/-- The selection configuration stored in the builder body.  The threshold
is a decimal string in the source, modelled as an integer. -/
structure SelectionConfig where
  threshold : Int
  strategy : UtxoSelectionStrategy
  includeTxFees : Bool
deriving DecidableEq, Repr

/-- A UTxO reference. -/
structure UtxoInput where
  txHash : String
  outputIndex : Nat
deriving DecidableEq, Repr

/-- A UTxO output part; the fields the builder core reads. -/
structure UtxoOutput where
  address : String
  amount : List Asset
deriving DecidableEq, Repr

/-- A UTxO: reference plus output. -/
structure UTxO where
  input : UtxoInput
  output : UtxoOutput
deriving DecidableEq, Repr

/-- The builder body (`MeshTxBuilderBody`): the root aggregate the fluent
operations fill in. -/
structure MeshTxBuilderBody where
  inputs : List TxIn
  outputs : List Output
  extraInputs : List UTxO
  selectionConfig : SelectionConfig
  collaterals : List PubKeyTxIn
  requiredSignatures : List String
  referenceInputs : List RefTxIn
  mints : List MintItem
  changeAddress : String
  metadata : List Metadata
  validityRange : ValidityRange
  certificates : List Certificate
  withdrawals : List Withdrawal
  signingKey : List String
deriving Repr

/-- Modelled from the spec: `emptyTxBuilderBody` from `@meshsdk/common`
(not under `src/`); "BuilderBody starts empty", with the default selection
configuration (threshold 5000000, experimental strategy, fees included)
matching the defaults of `selectUtxosFrom`. -/
def emptyTxBuilderBody : MeshTxBuilderBody where
  inputs := []
  outputs := []
  extraInputs := []
  selectionConfig := { threshold := 5000000, strategy := .experimental, includeTxFees := true }
  collaterals := []
  requiredSignatures := []
  referenceInputs := []
  mints := []
  changeAddress := ""
  metadata := []
  validityRange := {}
  certificates := []
  withdrawals := []
  signingKey := []

/-- Modelled from the spec: the `Protocol` record from `@meshsdk/common`
(not under `src/`); "Default protocol parameters: supplied by an external
constant".  A representative set of numeric fields. -/
structure Protocol where
  minFeeA : Nat
  minFeeB : Nat
  maxTxSize : Nat
  maxValSize : Nat
  keyDeposit : Nat
  poolDeposit : Nat
  coinsPerUtxoSize : Nat
deriving DecidableEq, Repr

/-- Modelled from the spec: `DEFAULT_PROTOCOL_PARAMETERS` from
`@meshsdk/common` (not under `src/`). -/
def DEFAULT_PROTOCOL_PARAMETERS : Protocol where
  minFeeA := 44
  minFeeB := 155381
  maxTxSize := 16384
  maxValSize := 5000
  keyDeposit := 2000000
  poolDeposit := 500000000
  coinsPerUtxoSize := 4310

/-- A partial protocol-parameter patch (`Partial<Protocol>`): every field
optional. -/
structure ProtocolPatch where
  minFeeA : Option Nat := none
  minFeeB : Option Nat := none
  maxTxSize : Option Nat := none
  maxValSize : Option Nat := none
  keyDeposit : Option Nat := none
  poolDeposit : Option Nat := none
  coinsPerUtxoSize : Option Nat := none
deriving DecidableEq, Repr

/-- The TS object spread `{ ...base, ...patch }` for protocol parameters:
each field of the patch, when present, overrides the base. -/
def mergeProtocol (base : Protocol) (patch : ProtocolPatch) : Protocol where
  minFeeA := patch.minFeeA.getD base.minFeeA
  minFeeB := patch.minFeeB.getD base.minFeeB
  maxTxSize := patch.maxTxSize.getD base.maxTxSize
  maxValSize := patch.maxValSize.getD base.maxValSize
  keyDeposit := patch.keyDeposit.getD base.keyDeposit
  poolDeposit := patch.poolDeposit.getD base.poolDeposit
  coinsPerUtxoSize := patch.coinsPerUtxoSize.getD base.coinsPerUtxoSize

/-- The field initializer `txEvaluationMultiplier = 1.1`, modelled by the
exact rational `11/10`. -/
def defaultTxEvaluationMultiplier : ℚ := 11 / 10

/-- The mutable state of a `MeshTxBuilderCore` instance: evaluation
multiplier, pending single-entry channel slots, script-mode flags with
remembered versions, protocol parameters, and the builder body. -/
structure MeshTxBuilderCore where
  txEvaluationMultiplier : ℚ
  txOutput : Option Output
  addingPlutusScriptInput : Bool
  plutusSpendingScriptVersion : Option LanguageVersion
  addingPlutusMint : Bool
  plutusMintingScriptVersion : Option LanguageVersion
  addingPlutusWithdrawal : Bool
  plutusWithdrawalScriptVersion : Option LanguageVersion
  protocolParameters : Protocol
  mintItem : Option MintItem
  txInQueueItem : Option TxIn
  withdrawalItem : Option Withdrawal
  collateralQueueItem : Option PubKeyTxIn
  refScriptTxInQueueItem : Option RefTxIn
  meshTxBuilderBody : MeshTxBuilderBody

/-- The state of a freshly constructed `MeshTxBuilderCore`: the class field
initializers plus the constructor, which sets
`meshTxBuilderBody = emptyTxBuilderBody()`. -/
def mkMeshTxBuilderCore : MeshTxBuilderCore where
  txEvaluationMultiplier := defaultTxEvaluationMultiplier
  txOutput := none
  addingPlutusScriptInput := false
  plutusSpendingScriptVersion := none
  addingPlutusMint := false
  plutusMintingScriptVersion := none
  addingPlutusWithdrawal := false
  plutusWithdrawalScriptVersion := none
  protocolParameters := DEFAULT_PROTOCOL_PARAMETERS
  mintItem := none
  txInQueueItem := none
  withdrawalItem := none
  collateralQueueItem := none
  refScriptTxInQueueItem := none
  meshTxBuilderBody := emptyTxBuilderBody

/-- Result of a builder operation: optional error message (a thrown
`Error`) and the state after the operation, mutations before the throw
included. -/
abbrev OpResult := Option String × MeshTxBuilderCore

/-- Normal return. -/
def ok (st : MeshTxBuilderCore) : OpResult := (none, st)

/-- A thrown `Error message` with the state as mutated so far. -/
def throwErr (msg : String) (st : MeshTxBuilderCore) : OpResult := (some msg, st)

/-- Sequencing of statements: a throw aborts the rest of the operation. -/
def OpResult.andThen : OpResult → (MeshTxBuilderCore → OpResult) → OpResult
  | (some e, st), _ => (some e, st)
  | (none, st), f => f st

namespace MeshTxBuilderCore

/-- `queueInput`: validate completeness of the pending input (a Plutus
`Script` input needs datum, redeemer and script source — checked in that
order), push it onto `inputs` and clear the slot.  The source also guards
`!this.txInQueueItem.scriptTxIn`, but that field is mandatory in the `TxIn`
type and is always constructed, so the guard never fires. -/
def queueInput (st : MeshTxBuilderCore) : OpResult :=
  match st.txInQueueItem with
  | none => throwErr "queueInput: Undefined input" st
  | some item =>
    match item with
    | .script _ scriptTxIn =>
      if scriptTxIn.datumSource.isNone then
        throwErr "queueInput: Script input does not contain datum information" st
      else if scriptTxIn.redeemer.isNone then
        throwErr "queueInput: Script input does not contain redeemer information" st
      else if scriptTxIn.scriptSource.isNone then
        throwErr "queueInput: Script input does not contain script information" st
      else
        ok { st with
              txInQueueItem := none
              meshTxBuilderBody.inputs := st.meshTxBuilderBody.inputs ++ [item] }
    | _ =>
      ok { st with
            txInQueueItem := none
            meshTxBuilderBody.inputs := st.meshTxBuilderBody.inputs ++ [item] }

/-- `queueMint`: validate that the pending mint has a script source, push
it onto `mints` and clear the slot.  (The redeemer is not checked.) -/
def queueMint (st : MeshTxBuilderCore) : OpResult :=
  match st.mintItem with
  | none => throwErr "queueMint: Undefined mint" st
  | some m =>
    if m.scriptSource.isNone then
      throwErr "queueMint: Missing mint script information" st
    else
      ok { st with
            mintItem := none
            meshTxBuilderBody.mints := st.meshTxBuilderBody.mints ++ [m] }

/-- `queueWithdrawal`: validate completeness of the pending withdrawal
(script withdrawals need a script source, Plutus ones also a redeemer),
push it onto `withdrawals` and clear the slot. -/
def queueWithdrawal (st : MeshTxBuilderCore) : OpResult :=
  match st.withdrawalItem with
  | none => throwErr "queueWithdrawal: Undefined withdrawal" st
  | some w =>
    match w with
    | .scriptWithdrawal _ _ scriptSource redeemer =>
      if scriptSource.isNone then
        throwErr "queueWithdrawal: Missing withdrawal script information" st
      else if redeemer.isNone then
        throwErr "queueWithdrawal: Missing withdrawal redeemer information" st
      else
        ok { st with
              withdrawalItem := none
              meshTxBuilderBody.withdrawals := st.meshTxBuilderBody.withdrawals ++ [w] }
    | .simpleScriptWithdrawal _ _ scriptSource =>
      if scriptSource.isNone then
        throwErr "queueWithdrawal: Missing withdrawal script information" st
      else
        ok { st with
              withdrawalItem := none
              meshTxBuilderBody.withdrawals := st.meshTxBuilderBody.withdrawals ++ [w] }
    | .pubKeyWithdrawal _ _ =>
      ok { st with
            withdrawalItem := none
            meshTxBuilderBody.withdrawals := st.meshTxBuilderBody.withdrawals ++ [w] }

/-- `txIn`: flush any pending input, then open a new pending input — a
Plutus `Script` input with empty `scriptTxIn` if the script-mode flag is
set, a `PubKey` input otherwise — and clear the flag. -/
def txIn (txHash : String) (txIndex : Nat) (amount : Option (List Asset))
    (address : Option String) (st : MeshTxBuilderCore) : OpResult :=
  (if st.txInQueueItem.isSome then st.queueInput else ok st).andThen fun st =>
    let param : TxInParameter :=
      { txHash := txHash, txIndex := txIndex, amount := amount, address := address }
    let item : TxIn :=
      if !st.addingPlutusScriptInput then .pubKey param
      else .script param {}
    ok { st with txInQueueItem := some item, addingPlutusScriptInput := false }

/-- `txInScript`: two successive conditionals.  A `PubKey` pending input is
promoted to `SimpleScript` with a provided script; a `Script` pending input
gets its `scriptSource` set to `Provided` with the remembered Plutus
version (default V2).  A `SimpleScript` pending input passes both
conditionals unchanged. -/
def txInScript (scriptCbor : String) (st : MeshTxBuilderCore) : OpResult :=
  match st.txInQueueItem with
  | none => throwErr "Undefined input" st
  | some item =>
    let item1 : TxIn :=
      match item with
      | .pubKey p =>
        .simpleScript p { scriptSource := some (.provided scriptCbor) }
      | other => other
    let item2 : TxIn :=
      match item1 with
      | .script p s =>
        .script p { s with
          scriptSource := some (.provided scriptCbor
            (st.plutusSpendingScriptVersion.getD .V2)) }
      | other => other
    ok { st with txInQueueItem := some item2 }

/-- `mint`: flush any pending mint, then open a new pending mint whose type
is `Plutus` if the mint-mode flag is set, `Native` otherwise, and clear the
flag. -/
def mint (quantity : Int) (policy : String) (name : String)
    (st : MeshTxBuilderCore) : OpResult :=
  (if st.mintItem.isSome then st.queueMint else ok st).andThen fun st =>
    ok { st with
          mintItem := some
            { type := if st.addingPlutusMint then .Plutus else .Native
              policyId := policy
              assetName := name
              amount := quantity }
          addingPlutusMint := false }

/-- `queueAllLastItem` (run by `finalize`): flush the pending output, input,
collateral, mint and withdrawal slots, in that order.  Outputs and
collaterals are pushed directly; inputs, mints and withdrawals go through
their validating queue functions. -/
def queueAllLastItem (st : MeshTxBuilderCore) : OpResult :=
  let st :=
    match st.txOutput with
    | some o =>
      { st with
          txOutput := none
          meshTxBuilderBody.outputs := st.meshTxBuilderBody.outputs ++ [o] }
    | none => st
  (if st.txInQueueItem.isSome then st.queueInput else ok st).andThen fun st =>
    let st :=
      match st.collateralQueueItem with
      | some c =>
        { st with
            collateralQueueItem := none
            meshTxBuilderBody.collaterals := st.meshTxBuilderBody.collaterals ++ [c] }
      | none => st
    (if st.mintItem.isSome then st.queueMint else ok st).andThen fun st =>
      if st.withdrawalItem.isSome then st.queueWithdrawal else ok st

end MeshTxBuilderCore

/-- `castRawDataToJsonString`: a JSON object argument is stringified with
the external big-integer-preserving `JSONBig.stringify`; a string argument
passes through.  Raw JSON objects are modelled by their serialized string,
so on the model the cast returns the carried string (`ofData` content is
only ever passed with `type = "Mesh"`, which never calls this cast). -/
def castRawDataToJsonString (rawData : RawContent) : String :=
  match rawData with
  | .ofString s => s
  | .ofData _ => ""

/-- `castBuilderDataToRedeemer`: wrap content and budget into a `Redeemer`
according to the requested encoding. -/
def castBuilderDataToRedeemer (redeemer : RawContent) (type : BuilderDataType)
    (exUnits : Budget) : Redeemer :=
  match type with
  | .Mesh => { data := .mesh redeemer.asData, exUnits := exUnits }
  | .JSON => { data := .json (castRawDataToJsonString redeemer), exUnits := exUnits }
  | .CBOR => { data := .cbor redeemer.asString, exUnits := exUnits }

namespace MeshTxBuilderCore

/-- `certificateRedeemerValue`: pop the last certificate (an empty list
throws with the body unchanged); if it is a `ScriptCertificate`, set its
redeemer and push it back; otherwise throw — after the pop, so the failing
certificate stays removed from the body. -/
def certificateRedeemerValue (redeemer : RawContent) (type : BuilderDataType)
    (exUnits : Budget) (st : MeshTxBuilderCore) : OpResult :=
  match st.meshTxBuilderBody.certificates.getLast? with
  | none =>
    throwErr "Certificate redeemer value attempted to be defined, but no certificate was found" st
  | some currentCert =>
    let popped :=
      { st with meshTxBuilderBody.certificates := st.meshTxBuilderBody.certificates.dropLast }
    match currentCert with
    | .scriptCertificate certType scriptSource _ =>
      ok { popped with
            meshTxBuilderBody.certificates := popped.meshTxBuilderBody.certificates ++
              [.scriptCertificate certType scriptSource
                (some (castBuilderDataToRedeemer redeemer type exUnits))] }
    | _ =>
      throwErr "Redeemer value attempted to be defined, but certificate has no script defined, or no script version was defined" popped

/-- `protocolParams`: spread the patch over the built-in defaults
(`{ ...DEFAULT_PROTOCOL_PARAMETERS, ...params }`) and store the result
(the source field is `_protocolParams`). -/
def protocolParams (params : ProtocolPatch) (st : MeshTxBuilderCore) :
    MeshTxBuilderCore :=
  { st with protocolParameters := mergeProtocol DEFAULT_PROTOCOL_PARAMETERS params }

/-- `reset`: reassign every instance field to its freshly-constructed
value. -/
def reset (st : MeshTxBuilderCore) : MeshTxBuilderCore :=
  { st with
      meshTxBuilderBody := emptyTxBuilderBody
      txEvaluationMultiplier := defaultTxEvaluationMultiplier
      txOutput := none
      addingPlutusScriptInput := false
      plutusSpendingScriptVersion := none
      addingPlutusMint := false
      plutusMintingScriptVersion := none
      addingPlutusWithdrawal := false
      plutusWithdrawalScriptVersion := none
      protocolParameters := DEFAULT_PROTOCOL_PARAMETERS
      mintItem := none
      txInQueueItem := none
      withdrawalItem := none
      collateralQueueItem := none
      refScriptTxInQueueItem := none }

end MeshTxBuilderCore

/-- The evaluation-action tags. -/
inductive RedeemerTag where
  | SPEND
  | MINT
  | CERT
  | REWARD
deriving DecidableEq, Repr

/-- An evaluation result (`Omit<Action, "data">`): tag, slot index and the
measured budget. -/
structure Action where
  tag : RedeemerTag
  index : Nat
  budget : Budget
deriving DecidableEq, Repr

/-- `Math.floor(budget * multiplier)` on both components.  The source
multiplier is the JS number `1.1`; it is modelled by the exact rational
`11/10`. -/
def scaleBudget (mult : ℚ) (b : Budget) : Budget where
  mem := (Int.floor ((b.mem : ℚ) * mult)).toNat
  steps := (Int.floor ((b.steps : ℚ) * mult)).toNat

namespace MeshTxBuilderCore

/-- One iteration of `updateRedeemer`'s `forEach`: locate the slot named by
the action's tag and index; if the slot is of the matching script type and
carries a redeemer, overwrite its `exUnits` with the scaled budget; a
non-matching slot is skipped silently.  An out-of-range index makes the
source dereference `undefined` (a thrown `TypeError`). -/
def applyEvaluation (mult : ℚ) (body : MeshTxBuilderBody) (ev : Action) :
    Option String × MeshTxBuilderBody :=
  match ev.tag with
  | .SPEND =>
    match body.inputs[ev.index]? with
    | none => (some "TypeError: Cannot read properties of undefined", body)
    | some input =>
      match input with
      | .script p s =>
        match s.redeemer with
        | some r =>
          let updated : TxIn := .script p
            { s with redeemer := some { r with exUnits := scaleBudget mult ev.budget } }
          (none, { body with inputs := body.inputs.set ev.index updated })
        | none => (none, body)
      | _ => (none, body)
  | .MINT =>
    match body.mints[ev.index]? with
    | none => (some "TypeError: Cannot read properties of undefined", body)
    | some m =>
      if m.type = .Plutus then
        match m.redeemer with
        | some r =>
          let updated : MintItem :=
            { m with redeemer := some { r with exUnits := scaleBudget mult ev.budget } }
          (none, { body with mints := body.mints.set ev.index updated })
        | none => (none, body)
      else (none, body)
  | .CERT =>
    match body.certificates[ev.index]? with
    | none => (some "TypeError: Cannot read properties of undefined", body)
    | some cert =>
      match cert with
      | .scriptCertificate ct ss (some r) =>
        let updated : Certificate := .scriptCertificate ct ss
          (some { r with exUnits := scaleBudget mult ev.budget })
        (none, { body with certificates := body.certificates.set ev.index updated })
      | _ => (none, body)
  | .REWARD =>
    match body.withdrawals[ev.index]? with
    | none => (some "TypeError: Cannot read properties of undefined", body)
    | some w =>
      match w with
      | .scriptWithdrawal addr coin ss (some r) =>
        let updated : Withdrawal := .scriptWithdrawal addr coin ss
          (some { r with exUnits := scaleBudget mult ev.budget })
        (none, { body with withdrawals := body.withdrawals.set ev.index updated })
      | _ => (none, body)

/-- `updateRedeemer`: apply every evaluation action in order
(`txEvaluation.forEach`); an exception in one iteration aborts the rest. -/
def updateRedeemer (mult : ℚ) (body : MeshTxBuilderBody) :
    List Action → Option String × MeshTxBuilderBody
  | [] => (none, body)
  | ev :: rest =>
    match applyEvaluation mult body ev with
    | (some e, b) => (some e, b)
    | (none, b) => updateRedeemer mult b rest

end MeshTxBuilderCore

/-- The input identity string `` `${txHash}#${txIndex}` ``. -/
def getTxInId (txIn : TxInParameter) : String :=
  txIn.txHash ++ "#" ++ toString txIn.txIndex

/-- The loop of `removeDuplicateInputs`: an input whose id is in
`currentTxInIds` is spliced out, the others are pushed onto `addedInputs`,
which replaces `inputs`.  The source never appends to `currentTxInIds`, so
the seen-set stays as initialized. -/
def removeDuplicateInputsAux (currentTxInIds : List String) :
    List TxIn → List TxIn
  | [] => []
  | i :: rest =>
    if currentTxInIds.contains (getTxInId i.txIn) then
      removeDuplicateInputsAux currentTxInIds rest
    else
      i :: removeDuplicateInputsAux currentTxInIds rest

namespace MeshTxBuilderCore

/-- `removeDuplicateInputs`: replace `inputs` by the inputs the loop kept
(the seen-set is initialized empty and never extended). -/
def removeDuplicateInputs (st : MeshTxBuilderCore) : MeshTxBuilderCore :=
  { st with meshTxBuilderBody.inputs :=
      removeDuplicateInputsAux [] st.meshTxBuilderBody.inputs }

end MeshTxBuilderCore

/-- The required-assets map `unit → signed quantity` (a JS `Map`, which
preserves insertion order): an association list. -/
abbrev AssetMap := List (String × Int)

/-- `map.get(unit)`. -/
def mapGet (m : AssetMap) (k : String) : Option Int :=
  (m.find? (fun p => p.1 == k)).map (·.2)

/-- `Number(map.get(unit)) || 0`. -/
def mapGetD (m : AssetMap) (k : String) : Int :=
  (mapGet m k).getD 0

/-- `map.set(unit, v)`: update in place if the key exists, else append
(JS `Map` insertion order). -/
def mapSet (m : AssetMap) (k : String) (v : Int) : AssetMap :=
  if m.any (fun p => p.1 == k) then
    m.map (fun p => if p.1 == k then (k, v) else p)
  else m ++ [(k, v)]

/-- The required-assets computation of `addUtxosFromSelection`:
`Σ outputs.amount − Σ inputs.amount − Σ mints` (a burn has negative
amount). -/
def computeRequiredAssets (body : MeshTxBuilderBody) : AssetMap :=
  let m := body.outputs.foldl
    (fun map output => output.amount.foldl
      (fun map asset => mapSet map asset.unit (mapGetD map asset.unit + asset.quantity))
      map)
    []
  let m := body.inputs.foldl
    (fun map input =>
      match input.txIn.amount with
      | some assets => assets.foldl
          (fun map asset => mapSet map asset.unit (mapGetD map asset.unit - asset.quantity))
          map
      | none => map)
    m
  body.mints.foldl
    (fun map mintItem =>
      let unit := mintItem.policyId ++ mintItem.assetName
      mapSet map unit (mapGetD map unit - mintItem.amount))
    m

/-- Total quantity of a unit in a UTxO's output. -/
def quantityOf (unit : String) (u : UTxO) : Int :=
  u.output.amount.foldl (fun s a => if a.unit == unit then s + a.quantity else s) 0

/-- Lovelace quantity of a UTxO. -/
def lovelaceOf (u : UTxO) : Int := quantityOf "lovelace" u

/-- Stable insertion (descending): the element goes before the first
strictly-smaller key, after all keys ≥ its own. -/
def insertDescBy {α : Type} (f : α → Int) (x : α) : List α → List α
  | [] => [x]
  | y :: rest => if f y < f x then x :: y :: rest else y :: insertDescBy f x rest

/-- Stable sort, largest key first (ties keep original order). -/
def sortDescBy {α : Type} (f : α → Int) (l : List α) : List α :=
  l.foldl (fun acc x => insertDescBy f x acc) []

/-- Stable insertion (ascending): the element goes before the first
strictly-greater key, after all keys ≤ its own. -/
def insertAscBy {α : Type} (f : α → Int) (x : α) : List α → List α
  | [] => [x]
  | y :: rest => if f x < f y then x :: y :: rest else y :: insertAscBy f x rest

/-- Stable sort, smallest key first (ties keep original order). -/
def sortAscBy {α : Type} (f : α → Int) (l : List α) : List α :=
  l.foldl (fun acc x => insertAscBy f x acc) []

/-- Greedy consumption down a (descending-sorted) candidate list until the
required quantity is no longer positive; an exhausted list with a positive
remainder is a selection failure. -/
def consumeDesc (f : UTxO → Int) : Int → List UTxO → Except String (List UTxO)
  | required, [] =>
    if required ≤ 0 then .ok []
    else .error "UTxO Selection: insufficient balance in the provided pool"
  | required, u :: rest =>
    if required ≤ 0 then .ok []
    else (consumeDesc f (required - f u) rest).map (u :: ·)

/-- `requiredAssets` reduced by every unit a consumed UTxO contains. -/
def subtractAssets (req : AssetMap) (u : UTxO) : AssetMap :=
  u.output.amount.foldl
    (fun m a => mapSet m a.unit (mapGetD m a.unit - a.quantity)) req

/-- Greedy consumption for one unit down a (descending-sorted) candidate
list: stop once the unit's tracked requirement (plus `extra`, the lovelace
threshold) is no longer positive; every consumed UTxO reduces the
requirement across all its units.  Returns selected UTxOs, the untouched
remainder of the list, and the updated requirements. -/
def consumeUnit (unit : String) (extra : Int) :
    List UTxO → AssetMap → Except String (List UTxO × List UTxO × AssetMap)
  | [], req =>
    if mapGetD req unit + extra ≤ 0 then .ok ([], [], req)
    else .error "UTxO Selection: insufficient balance in the provided pool"
  | u :: rest, req =>
    if mapGetD req unit + extra ≤ 0 then .ok ([], u :: rest, req)
    else (consumeUnit unit extra rest (subtractAssets req u)).map
      (fun res => (u :: res.1, res.2.1, res.2.2))

/-- Modelled from the spec: the `UtxoSelection` class of `@meshsdk/common`
(not under `src/`), constructed from the selection threshold and the
`includeTxFees` flag (§4.2: the threshold is the caller's fee padding; the
spec gives no separate formula for `includeTxFees`). -/
structure UtxoSelection where
  threshold : Int
  includeTxFees : Bool

namespace UtxoSelection

/-- Modelled from the spec (§4.2): "Lovelace's required quantity has
`threshold` added before selection." -/
def requiredLovelace (sel : UtxoSelection) (required : AssetMap) : Int :=
  mapGetD required "lovelace" + sel.threshold

/-- Modelled from the spec (§4.2): `largestFirst` "only considers
lovelace.  Sort candidates by lovelace quantity descending; consume until
required lovelace ≤ 0.  Fails if insufficient." -/
def largestFirst (sel : UtxoSelection) (required : AssetMap)
    (pool : List UTxO) : Except String (List UTxO) :=
  consumeDesc lovelaceOf (sel.requiredLovelace required) (sortDescBy lovelaceOf pool)

/-- Whether a UTxO contains a required (positive-requirement) non-ADA
unit. -/
def isRelevantUtxo (required : AssetMap) (u : UTxO) : Bool :=
  u.output.amount.any (fun a => a.unit != "lovelace" && decide (0 < mapGetD required a.unit))

/-- Modelled from the spec (§4.2, with §8 sufficiency): `keepRelevant`
"prefilter candidates to those containing any required non-ADA unit, then
run largestFirst on lovelace over the prefiltered set plus the rest" — the
prefiltered UTxOs are kept, and largest-first on lovelace over the rest
covers the remaining lovelace requirement. -/
def keepRelevant (sel : UtxoSelection) (required : AssetMap)
    (pool : List UTxO) : Except String (List UTxO) :=
  let relevant := pool.filter (isRelevantUtxo required)
  let rest := pool.filter (fun u => !(isRelevantUtxo required u))
  let covered := relevant.foldl (fun s u => s + lovelaceOf u) 0
  (consumeDesc lovelaceOf (sel.requiredLovelace required - covered)
      (sortDescBy lovelaceOf rest)).map
    (fun selected => relevant ++ selected)

/-- Modelled from the spec (§4.2): `largestFirstMultiAsset` — "for each
unit with positive requirement (lovelace handled last), sort candidates by
that unit's quantity descending; consume until that unit's requirement ≤ 0;
then do lovelace.  Each selected UTxO reduces the requirement across all
its contained units." -/
def largestFirstMultiAsset (sel : UtxoSelection) (required : AssetMap)
    (pool : List UTxO) : Except String (List UTxO) := do
  let nonAda := (required.filter (fun p => p.1 != "lovelace" && decide (0 < p.2))).map (·.1)
  let step := fun (acc : List UTxO × List UTxO × AssetMap) (unit : String) => do
    let (selAcc, poolAcc, reqAcc) := acc
    let (s, p, r) ← consumeUnit unit 0 (sortDescBy (quantityOf unit) poolAcc) reqAcc
    pure (selAcc ++ s, p, r)
  let (selAcc, poolAcc, reqAcc) ← nonAda.foldlM step ([], pool, required)
  let (s, _, _) ← consumeUnit "lovelace" sel.threshold (sortDescBy lovelaceOf poolAcc) reqAcc
  pure (selAcc ++ s)

/-- Total availability of a unit across a pool. -/
def availability (pool : List UTxO) (unit : String) : Int :=
  pool.foldl (fun s u => s + quantityOf unit u) 0

/-- The smallest single UTxO (by the unit's quantity) that fully covers a
requirement. -/
def pickSmallestCovering (unit : String) (need : Int) (pool : List UTxO) :
    Option UTxO :=
  (sortAscBy (quantityOf unit) pool).find? (fun u => decide (need ≤ quantityOf unit u))

/-- Modelled from the spec (§4.2): `experimental` — "multi-pass: iterate
required units from least-available to most-available; for each, pick the
smallest UTxO that fully covers it; fall back to largest-first if no
single UTxO covers." -/
def experimental (sel : UtxoSelection) (required : AssetMap)
    (pool : List UTxO) : Except String (List UTxO) := do
  let units := (required.filter (fun p => decide (0 < p.2))).map (·.1)
  let units := sortAscBy (availability pool) units
  let step := fun (acc : List UTxO × List UTxO × AssetMap) (unit : String) => do
    let (selAcc, poolAcc, reqAcc) := acc
    let extra : Int := if unit == "lovelace" then sel.threshold else 0
    let need := mapGetD reqAcc unit + extra
    if need ≤ 0 then pure acc
    else
      match pickSmallestCovering unit need poolAcc with
      | some u => pure (selAcc ++ [u], poolAcc.erase u, subtractAssets reqAcc u)
      | none => do
        let (s, p, r) ← consumeUnit unit extra (sortDescBy (quantityOf unit) poolAcc) reqAcc
        pure (selAcc ++ s, p, r)
  let (selAcc, _, _) ← units.foldlM step ([], pool, required)
  pure selAcc

end UtxoSelection

namespace MeshTxBuilderCore

/-- `addUtxosFromSelection`: compute the required-assets map, run the
configured selection strategy over `extraInputs`, and append the selected
UTxOs to `inputs` as `PubKey` inputs.  The `case "keepRelevant"` in the
source switch has no `break` and falls through into
`case "largestFirst"`, whose assignment overwrites the keepRelevant
selection. -/
def addUtxosFromSelection (st : MeshTxBuilderCore) : OpResult :=
  let requiredAssets := computeRequiredAssets st.meshTxBuilderBody
  let selectionConfig := st.meshTxBuilderBody.selectionConfig
  let utxoSelection : UtxoSelection :=
    { threshold := selectionConfig.threshold
      includeTxFees := selectionConfig.includeTxFees }
  let selRes : Except String (List UTxO) :=
    match selectionConfig.strategy with
    | .keepRelevant =>
      (utxoSelection.keepRelevant requiredAssets st.meshTxBuilderBody.extraInputs).bind
        (fun _ => utxoSelection.largestFirst requiredAssets st.meshTxBuilderBody.extraInputs)
    | .largestFirst =>
      utxoSelection.largestFirst requiredAssets st.meshTxBuilderBody.extraInputs
    | .largestFirstMultiAsset =>
      utxoSelection.largestFirstMultiAsset requiredAssets st.meshTxBuilderBody.extraInputs
    | .experimental =>
      utxoSelection.experimental requiredAssets st.meshTxBuilderBody.extraInputs
  match selRes with
  | .error e => throwErr e st
  | .ok selectedInputs =>
    ok { st with
          meshTxBuilderBody.inputs := st.meshTxBuilderBody.inputs ++
            selectedInputs.map (fun input => TxIn.pubKey
              { txHash := input.input.txHash
                txIndex := input.input.outputIndex
                amount := some input.output.amount
                address := some input.output.address }) }

end MeshTxBuilderCore

/-- Completeness of a pending input: a Plutus `Script` input needs datum
source, redeemer and script source; other variants have no requirement at
flush time. -/
def TxIn.scriptInputCompleteB : TxIn → Bool
  | .script _ s => s.datumSource.isSome && s.redeemer.isSome && s.scriptSource.isSome
  | _ => true

/-- Completeness of a pending withdrawal at flush time. -/
def Withdrawal.completeB : Withdrawal → Bool
  | .scriptWithdrawal _ _ scriptSource redeemer => scriptSource.isSome && redeemer.isSome
  | .simpleScriptWithdrawal _ _ scriptSource => scriptSource.isSome
  | .pubKeyWithdrawal _ _ => true

/-- Completeness of a pending mint at flush time (`queueMint` checks only
the script source). -/
def MintItem.completeB (m : MintItem) : Bool := m.scriptSource.isSome

/-- Whether a certificate is a (Plutus) `ScriptCertificate`. -/
def Certificate.isScriptCertificateB : Certificate → Bool
  | .scriptCertificate _ _ _ => true
  | _ => false

/-- The pending input slot is empty or holds a complete item. -/
def pendingInputOk (st : MeshTxBuilderCore) : Bool :=
  match st.txInQueueItem with
  | some i => i.scriptInputCompleteB
  | none => true

/-- The pending mint slot is empty or holds a complete item. -/
def pendingMintOk (st : MeshTxBuilderCore) : Bool :=
  match st.mintItem with
  | some m => m.completeB
  | none => true

/-- The pending withdrawal slot is empty or holds a complete item. -/
def pendingWithdrawalOk (st : MeshTxBuilderCore) : Bool :=
  match st.withdrawalItem with
  | some w => w.completeB
  | none => true

lemma queueInput_success (st : MeshTxBuilderCore) (item : TxIn)
    (h : st.txInQueueItem = some item) (hc : item.scriptInputCompleteB = true) :
    st.queueInput = (none,
      { st with
          txInQueueItem := none
          meshTxBuilderBody.inputs := st.meshTxBuilderBody.inputs ++ [item] }) := by
  unfold MeshTxBuilderCore.queueInput
  rw [h]
  cases item with
  | pubKey p => simp [ok]
  | simpleScript p s => simp [ok]
  | script p s =>
    obtain ⟨ss, ds, rd⟩ := s
    cases ss <;> cases ds <;> cases rd <;>
      simp_all [TxIn.scriptInputCompleteB, ok]

lemma queueInput_incomplete (st : MeshTxBuilderCore) (p : TxInParameter)
    (s : ScriptTxInParameter) (h : st.txInQueueItem = some (.script p s))
    (hc : TxIn.scriptInputCompleteB (.script p s) = false) :
    (st.queueInput).1.isSome = true ∧ (st.queueInput).2 = st := by
  unfold MeshTxBuilderCore.queueInput
  rw [h]
  obtain ⟨ss, ds, rd⟩ := s
  cases ss <;> cases ds <;> cases rd <;>
    simp_all [TxIn.scriptInputCompleteB, throwErr]

lemma queueMint_success (st : MeshTxBuilderCore) (m : MintItem)
    (h : st.mintItem = some m) (hc : m.completeB = true) :
    st.queueMint = (none,
      { st with
          mintItem := none
          meshTxBuilderBody.mints := st.meshTxBuilderBody.mints ++ [m] }) := by
  unfold MeshTxBuilderCore.queueMint
  rw [h]
  cases hs : m.scriptSource <;> simp_all [MintItem.completeB, ok]

lemma queueWithdrawal_success (st : MeshTxBuilderCore) (w : Withdrawal)
    (h : st.withdrawalItem = some w) (hc : w.completeB = true) :
    st.queueWithdrawal = (none,
      { st with
          withdrawalItem := none
          meshTxBuilderBody.withdrawals := st.meshTxBuilderBody.withdrawals ++ [w] }) := by
  unfold MeshTxBuilderCore.queueWithdrawal
  rw [h]
  cases w with
  | pubKeyWithdrawal a c => simp [ok]
  | simpleScriptWithdrawal a c ss =>
    cases ss <;> simp_all [Withdrawal.completeB, ok]
  | scriptWithdrawal a c ss rd =>
    cases ss <;> cases rd <;> simp_all [Withdrawal.completeB, ok]

/-- C8: after `reset()` the builder state equals that of a freshly
constructed `MeshTxBuilderCore` in every field, hence `reset(); reset()`
is indistinguishable from a single `reset()`. -/
theorem claim8_reset_correct (st : MeshTxBuilderCore) :
    st.reset = mkMeshTxBuilderCore ∧ st.reset.reset = st.reset :=
  ⟨rfl, rfl⟩

/-- C9: calling `certificateRedeemerValue` when the certificates list is
non-empty and its last certificate is not a `ScriptCertificate` raises an
error with that last certificate already popped from the body — the
builder state is mutated on this error path. -/
theorem claim9_certificateRedeemerValue_error_mutates
    (st : MeshTxBuilderCore) (certs : List Certificate) (cert : Certificate)
    (redeemer : RawContent) (type : BuilderDataType) (exUnits : Budget)
    (h : st.meshTxBuilderBody.certificates = certs ++ [cert])
    (hns : cert.isScriptCertificateB = false) :
    MeshTxBuilderCore.certificateRedeemerValue redeemer type exUnits st =
      (some "Redeemer value attempted to be defined, but certificate has no script defined, or no script version was defined",
       { st with meshTxBuilderBody.certificates := certs }) := by
  unfold MeshTxBuilderCore.certificateRedeemerValue
  rw [h, List.getLast?_concat]
  cases cert with
  | scriptCertificate ct ss r => simp [Certificate.isScriptCertificateB] at hns
  | basic ct => simp [throwErr, List.dropLast_concat]
  | simpleScriptCertificate ct ss => simp [throwErr, List.dropLast_concat]

def stC9 : MeshTxBuilderCore :=
  { mkMeshTxBuilderCore with
      meshTxBuilderBody :=
        { emptyTxBuilderBody with certificates := [.basic (.registerStake "stake_test1xyz")] } }

/-- Witness for C9 at a concrete one-certificate state. -/
theorem claim9_witness :
    MeshTxBuilderCore.certificateRedeemerValue (.ofData (.integer 42)) .Mesh
        DEFAULT_REDEEMER_BUDGET stC9 =
      (some "Redeemer value attempted to be defined, but certificate has no script defined, or no script version was defined",
       { stC9 with meshTxBuilderBody.certificates := [] }) :=
  claim9_certificateRedeemerValue_error_mutates stC9 []
    (.basic (.registerStake "stake_test1xyz")) (.ofData (.integer 42)) .Mesh
    DEFAULT_REDEEMER_BUDGET rfl rfl

/-- C10: `protocolParams` merges each patch into the built-in defaults,
not into the previously applied parameters; after two calls the stored
parameters are the defaults overridden by the second patch alone, and a
field absent from the second patch reverts to its default value. -/
theorem claim10_protocolParams_merge (st : MeshTxBuilderCore)
    (p1 p2 : ProtocolPatch) :
    (MeshTxBuilderCore.protocolParams p2
        (MeshTxBuilderCore.protocolParams p1 st)).protocolParameters =
      mergeProtocol DEFAULT_PROTOCOL_PARAMETERS p2 ∧
    (∀ (q : ProtocolPatch) (s : MeshTxBuilderCore),
      (MeshTxBuilderCore.protocolParams q s).protocolParameters =
        mergeProtocol DEFAULT_PROTOCOL_PARAMETERS q) ∧
    (p2.minFeeA = none →
      (MeshTxBuilderCore.protocolParams p2
          (MeshTxBuilderCore.protocolParams p1 st)).protocolParameters.minFeeA =
        DEFAULT_PROTOCOL_PARAMETERS.minFeeA) := by
  refine ⟨rfl, fun q s => rfl, fun h => ?_⟩
  simp [MeshTxBuilderCore.protocolParams, mergeProtocol, h]

def patchA : ProtocolPatch := { minFeeA := some 99 }

def patchB : ProtocolPatch := { minFeeB := some 7 }

/-- Witness for C10: a field set by the first patch and absent from the
second reverts to its default. -/
theorem claim10_witness :
    patchB.minFeeA = none ∧
    (MeshTxBuilderCore.protocolParams patchB
        (MeshTxBuilderCore.protocolParams patchA mkMeshTxBuilderCore)).protocolParameters.minFeeA =
      DEFAULT_PROTOCOL_PARAMETERS.minFeeA :=
  ⟨rfl, (claim10_protocolParams_merge mkMeshTxBuilderCore patchA patchB).2.2 rfl⟩

def mC1 : MintItem :=
  { type := .Plutus
    policyId := "policy1"
    assetName := "deadbeef"
    amount := 5
    scriptSource := some (.plutus (.provided "c0de" .V2))
    redeemer := none }

def stC1 : MeshTxBuilderCore := { mkMeshTxBuilderCore with mintItem := some mC1 }

/-- C1 counterexample: flushing a pending Plutus mint that has a script
source but no redeemer raises no error, and the mint IS appended to the
body's mints — contradicting the claim that a missing redeemer errors. -/
theorem claim1_counterexample :
    stC1.mintItem = some mC1 ∧ mC1.type = .Plutus ∧ mC1.redeemer = none ∧
    (stC1.queueMint).1 = none ∧
    (stC1.queueMint).2.meshTxBuilderBody.mints = [mC1] :=
  ⟨rfl, rfl, rfl, rfl, rfl⟩

/-- C1 (amended): flushing a pending mint raises an error (leaving the
mints unchanged) iff its `scriptSource` is missing; the redeemer is not
validated, so a Plutus mint without a redeemer is appended without
error. -/
theorem claim1_amended_correct (st : MeshTxBuilderCore) (m : MintItem)
    (h : st.mintItem = some m) :
    (m.scriptSource = none →
      st.queueMint = (some "queueMint: Missing mint script information", st)) ∧
    (m.scriptSource.isSome = true →
      st.queueMint = (none,
        { st with
            mintItem := none
            meshTxBuilderBody.mints := st.meshTxBuilderBody.mints ++ [m] })) := by
  constructor
  · intro hn
    unfold MeshTxBuilderCore.queueMint
    rw [h]
    simp [hn, throwErr]
  · intro hs
    exact queueMint_success st m h hs

/-- Witness for the amended C1 at the concrete incomplete Plutus mint. -/
theorem claim1_amended_witness :
    stC1.queueMint = (none,
      { stC1 with
          mintItem := none
          meshTxBuilderBody.mints := stC1.meshTxBuilderBody.mints ++ [mC1] }) :=
  (claim1_amended_correct stC1 mC1 rfl).2 rfl

def pC5 : TxInParameter := { txHash := "dd", txIndex := 3 }

def sC5 : SimpleScriptTxInParameter := { scriptSource := some (.provided "aabb") }

def stC5 : MeshTxBuilderCore :=
  { mkMeshTxBuilderCore with txInQueueItem := some (.simpleScript pC5 sC5) }

/-- C5 counterexample: on a `SimpleScript` pending input, `txInScript`
raises no error and leaves the builder unchanged — contradicting the claim
that it raises an error. -/
theorem claim5_counterexample :
    stC5.txInQueueItem = some (.simpleScript pC5 sC5) ∧
    MeshTxBuilderCore.txInScript "c0de" stC5 = (none, stC5) :=
  ⟨rfl, rfl⟩

/-- C5 (amended): `txInScript` on a `PubKey` pending input promotes it to
`SimpleScript` with a `Provided` script; on a `Script` pending input it
sets `scriptSource` to `Provided` with the remembered Plutus version
(default V2); on a `SimpleScript` pending input it silently leaves the
builder unchanged; with no pending input it raises an error. -/
theorem claim5_amended_correct (cbor : String) (st : MeshTxBuilderCore) :
    (st.txInQueueItem = none →
      MeshTxBuilderCore.txInScript cbor st = (some "Undefined input", st)) ∧
    (∀ p, st.txInQueueItem = some (.pubKey p) →
      MeshTxBuilderCore.txInScript cbor st = (none,
        { st with txInQueueItem := some (.simpleScript p
            { scriptSource := some (.provided cbor) }) })) ∧
    (∀ p s, st.txInQueueItem = some (.script p s) →
      MeshTxBuilderCore.txInScript cbor st = (none,
        { st with txInQueueItem := some (.script p
            { s with scriptSource := some (.provided cbor
                (st.plutusSpendingScriptVersion.getD .V2)) }) })) ∧
    (∀ p s, st.txInQueueItem = some (.simpleScript p s) →
      MeshTxBuilderCore.txInScript cbor st = (none, st)) := by
  refine ⟨fun h => ?_, fun p h => ?_, fun p s h => ?_, fun p s h => ?_⟩
  · unfold MeshTxBuilderCore.txInScript
    rw [h]
    rfl
  · unfold MeshTxBuilderCore.txInScript
    rw [h]
    rfl
  · unfold MeshTxBuilderCore.txInScript
    rw [h]
    rfl
  · unfold MeshTxBuilderCore.txInScript
    rw [h]
    have hst : { st with txInQueueItem := some (.simpleScript p s) } = st := by
      cases st
      simp_all
    show ok { st with txInQueueItem := some (.simpleScript p s) } = (none, st)
    rw [hst]
    rfl

def pC5w : TxInParameter := { txHash := "ee", txIndex := 4 }

def stC5w : MeshTxBuilderCore :=
  { mkMeshTxBuilderCore with txInQueueItem := some (.pubKey pC5w) }

/-- Witness for the amended C5: promotion of a concrete `PubKey` pending
input. -/
theorem claim5_amended_witness :
    MeshTxBuilderCore.txInScript "c0de" stC5w = (none,
      { stC5w with txInQueueItem := some (.simpleScript pC5w
          { scriptSource := some (.provided "c0de") }) }) :=
  (claim5_amended_correct "c0de" stC5w).2.1 pC5w rfl

/-- C4: flushing a pending `Script` input errors (state unchanged) when
any of datum source, redeemer or script source is absent; otherwise it is
appended to `inputs` and the slot cleared; consequently flushing preserves
the invariant that every `Script` input in the body is complete. -/
theorem claim4_queueInput_correct (st : MeshTxBuilderCore) (p : TxInParameter)
    (s : ScriptTxInParameter) (h : st.txInQueueItem = some (.script p s)) :
    ((s.datumSource = none ∨ s.redeemer = none ∨ s.scriptSource = none) →
      (st.queueInput).1.isSome = true ∧ (st.queueInput).2 = st) ∧
    (s.datumSource.isSome = true → s.redeemer.isSome = true →
      s.scriptSource.isSome = true →
      st.queueInput = (none,
        { st with
            txInQueueItem := none
            meshTxBuilderBody.inputs := st.meshTxBuilderBody.inputs ++ [.script p s] })) ∧
    ((∀ i ∈ st.meshTxBuilderBody.inputs, i.scriptInputCompleteB = true) →
      (st.queueInput).1 = none →
      ∀ i ∈ (st.queueInput).2.meshTxBuilderBody.inputs, i.scriptInputCompleteB = true) := by
  refine ⟨fun hmiss => ?_, fun h1 h2 h3 => ?_, fun hinv hok => ?_⟩
  · refine queueInput_incomplete st p s h ?_
    simp only [TxIn.scriptInputCompleteB]
    rcases hmiss with hd | hr | hs
    · simp [hd]
    · simp [hr]
    · simp [hs]
  · have hc : TxIn.scriptInputCompleteB (.script p s) = true := by
      simp [TxIn.scriptInputCompleteB, h1, h2, h3]
    exact queueInput_success st _ h hc
  · by_cases hc : TxIn.scriptInputCompleteB (.script p s) = true
    · rw [queueInput_success st _ h hc] at hok ⊢
      intro i hi
      rcases List.mem_append.mp hi with hi | hi
      · exact hinv i hi
      · rcases List.mem_singleton.mp hi with rfl
        exact hc
    · have hincomp := queueInput_incomplete st p s h (by simpa using hc)
      rw [hok] at hincomp
      simp at hincomp

def pC4 : TxInParameter := { txHash := "bb", txIndex := 1 }

def sC4 : ScriptTxInParameter :=
  { scriptSource := some (.provided "c0de" .V2)
    datumSource := some (.inline "bb" 1)
    redeemer := some { data := .mesh (.integer 42), exUnits := DEFAULT_REDEEMER_BUDGET } }

def stC4 : MeshTxBuilderCore :=
  { mkMeshTxBuilderCore with txInQueueItem := some (.script pC4 sC4) }

/-- Witness for C4: a concrete complete `Script` input flushes without
error. -/
theorem claim4_witness :
    stC4.queueInput = (none,
      { stC4 with
          txInQueueItem := none
          meshTxBuilderBody.inputs := stC4.meshTxBuilderBody.inputs ++ [.script pC4 sC4] }) :=
  (claim4_queueInput_correct stC4 pC4 sC4 rfl).2.1 rfl rfl rfl

/-- The input identity the spec deduplicates on. -/
def txInKey (i : TxIn) : String × Nat := (i.txIn.txHash, i.txIn.txIndex)

/-- What §4.4 of the spec describes (spec-side definition, for
comparison): keep the first occurrence of each `(txHash, txIndex)`, remove
later ones, preserving order. -/
def dedupSpec : List (String × Nat) → List TxIn → List TxIn
  | _, [] => []
  | seen, i :: rest =>
    if seen.contains (txInKey i) then dedupSpec seen rest
    else i :: dedupSpec (txInKey i :: seen) rest

def dupInputs : List TxIn :=
  [.pubKey { txHash := "aa", txIndex := 0 }, .pubKey { txHash := "bb", txIndex := 1 },
   .pubKey { txHash := "aa", txIndex := 0 }, .pubKey { txHash := "cc", txIndex := 2 },
   .pubKey { txHash := "bb", txIndex := 1 }]

def stC6 : MeshTxBuilderCore :=
  { mkMeshTxBuilderCore with
      meshTxBuilderBody := { emptyTxBuilderBody with inputs := dupInputs } }

/-- C6 (code bug): the source never records a seen id, so
`removeDuplicateInputs` keeps every input.  On the spec's S5 list all five
entries survive (later duplicates included), while the spec-side dedup
keeps three; the function is trivially idempotent but does not remove
duplicates. -/
theorem claim6_dedup_noop_eval :
    MeshTxBuilderCore.removeDuplicateInputs stC6 = stC6 ∧
    (MeshTxBuilderCore.removeDuplicateInputs stC6).meshTxBuilderBody.inputs.map txInKey =
      [("aa", 0), ("bb", 1), ("aa", 0), ("cc", 2), ("bb", 1)] ∧
    (dedupSpec [] stC6.meshTxBuilderBody.inputs).map txInKey =
      [("aa", 0), ("bb", 1), ("cc", 2)] ∧
    MeshTxBuilderCore.removeDuplicateInputs (MeshTxBuilderCore.removeDuplicateInputs stC6) =
      MeshTxBuilderCore.removeDuplicateInputs stC6 := by
  refine ⟨rfl, rfl, by decide, rfl⟩

/-- Spec-side channel step: flush the pending output (no validation). -/
def flushPendingOutput (st : MeshTxBuilderCore) : MeshTxBuilderCore :=
  match st.txOutput with
  | some o =>
    { st with
        txOutput := none
        meshTxBuilderBody.outputs := st.meshTxBuilderBody.outputs ++ [o] }
  | none => st

/-- Spec-side channel step: flush the pending input when present. -/
def flushPendingInput (st : MeshTxBuilderCore) : OpResult :=
  if st.txInQueueItem.isSome then st.queueInput else ok st

/-- Spec-side channel step: flush the pending collateral (no
validation). -/
def flushPendingCollateral (st : MeshTxBuilderCore) : MeshTxBuilderCore :=
  match st.collateralQueueItem with
  | some c =>
    { st with
        collateralQueueItem := none
        meshTxBuilderBody.collaterals := st.meshTxBuilderBody.collaterals ++ [c] }
  | none => st

/-- Spec-side channel step: flush the pending mint when present. -/
def flushPendingMint (st : MeshTxBuilderCore) : OpResult :=
  if st.mintItem.isSome then st.queueMint else ok st

/-- Spec-side channel step: flush the pending withdrawal when present. -/
def flushPendingWithdrawal (st : MeshTxBuilderCore) : OpResult :=
  if st.withdrawalItem.isSome then st.queueWithdrawal else ok st

lemma flushPendingOutput_eq (st : MeshTxBuilderCore) :
    flushPendingOutput st =
      { st with
          txOutput := none
          meshTxBuilderBody.outputs := st.meshTxBuilderBody.outputs ++ st.txOutput.toList } := by
  cases h : st.txOutput with
  | none => cases st; simp_all [flushPendingOutput]
  | some o => cases st; simp_all [flushPendingOutput]

lemma flushPendingCollateral_eq (st : MeshTxBuilderCore) :
    flushPendingCollateral st =
      { st with
          collateralQueueItem := none
          meshTxBuilderBody.collaterals :=
            st.meshTxBuilderBody.collaterals ++ st.collateralQueueItem.toList } := by
  cases h : st.collateralQueueItem with
  | none => cases st; simp_all [flushPendingCollateral]
  | some c => cases st; simp_all [flushPendingCollateral]

lemma flushPendingInput_eq (st : MeshTxBuilderCore)
    (h : pendingInputOk st = true) :
    flushPendingInput st = (none,
      { st with
          txInQueueItem := none
          meshTxBuilderBody.inputs := st.meshTxBuilderBody.inputs ++ st.txInQueueItem.toList }) := by
  cases hq : st.txInQueueItem with
  | none =>
    cases st
    simp_all [flushPendingInput, ok]
  | some item =>
    have hc : item.scriptInputCompleteB = true := by
      unfold pendingInputOk at h
      rw [hq] at h
      exact h
    rw [flushPendingInput, hq]
    simp only [Option.isSome_some, if_true]
    rw [queueInput_success st item hq hc]
    rfl

lemma flushPendingMint_eq (st : MeshTxBuilderCore)
    (h : pendingMintOk st = true) :
    flushPendingMint st = (none,
      { st with
          mintItem := none
          meshTxBuilderBody.mints := st.meshTxBuilderBody.mints ++ st.mintItem.toList }) := by
  cases hq : st.mintItem with
  | none =>
    cases st
    simp_all [flushPendingMint, ok]
  | some m =>
    have hc : m.completeB = true := by
      unfold pendingMintOk at h
      rw [hq] at h
      exact h
    rw [flushPendingMint, hq]
    simp only [Option.isSome_some, if_true]
    rw [queueMint_success st m hq hc]
    rfl

lemma flushPendingWithdrawal_eq (st : MeshTxBuilderCore)
    (h : pendingWithdrawalOk st = true) :
    flushPendingWithdrawal st = (none,
      { st with
          withdrawalItem := none
          meshTxBuilderBody.withdrawals :=
            st.meshTxBuilderBody.withdrawals ++ st.withdrawalItem.toList }) := by
  cases hq : st.withdrawalItem with
  | none =>
    cases st
    simp_all [flushPendingWithdrawal, ok]
  | some w =>
    have hc : w.completeB = true := by
      unfold pendingWithdrawalOk at h
      rw [hq] at h
      exact h
    rw [flushPendingWithdrawal, hq]
    simp only [Option.isSome_some, if_true]
    rw [queueWithdrawal_success st w hq hc]
    rfl

lemma andThen_ok (st : MeshTxBuilderCore) (f : MeshTxBuilderCore → OpResult) :
    (ok st).andThen f = f st := rfl

lemma andThen_pair_none (st : MeshTxBuilderCore)
    (f : MeshTxBuilderCore → OpResult) :
    OpResult.andThen (none, st) f = f st := rfl

/-- C7: `queueAllLastItem` flushes the pending output, input, collateral,
mint and withdrawal slots in exactly that order (it equals the five
spec-side channel steps sequenced in that order), and — when the pending
items pass their per-channel validation — appends each present item to the
corresponding body list, clears every slot, and skips absent slots. -/
theorem claim7_queueAllLastItem_correct (st : MeshTxBuilderCore)
    (h1 : pendingInputOk st = true) (h2 : pendingMintOk st = true)
    (h3 : pendingWithdrawalOk st = true) :
    (∀ s : MeshTxBuilderCore, s.queueAllLastItem =
      ((ok (flushPendingOutput s)).andThen flushPendingInput).andThen
        (fun s2 => ((ok (flushPendingCollateral s2)).andThen flushPendingMint).andThen
          flushPendingWithdrawal)) ∧
    st.queueAllLastItem = (none,
      { st with
          txOutput := none
          txInQueueItem := none
          collateralQueueItem := none
          mintItem := none
          withdrawalItem := none
          meshTxBuilderBody := { st.meshTxBuilderBody with
            outputs := st.meshTxBuilderBody.outputs ++ st.txOutput.toList
            inputs := st.meshTxBuilderBody.inputs ++ st.txInQueueItem.toList
            collaterals := st.meshTxBuilderBody.collaterals ++ st.collateralQueueItem.toList
            mints := st.meshTxBuilderBody.mints ++ st.mintItem.toList
            withdrawals := st.meshTxBuilderBody.withdrawals ++ st.withdrawalItem.toList } }) := by
  refine ⟨fun s => rfl, ?_⟩
  calc st.queueAllLastItem
      = (flushPendingInput (flushPendingOutput st)).andThen
          (fun s2 => ((ok (flushPendingCollateral s2)).andThen flushPendingMint).andThen
            flushPendingWithdrawal) := rfl
    _ = (flushPendingInput
          { st with
              txOutput := none
              meshTxBuilderBody.outputs :=
                st.meshTxBuilderBody.outputs ++ st.txOutput.toList }).andThen
          (fun s2 => ((ok (flushPendingCollateral s2)).andThen flushPendingMint).andThen
            flushPendingWithdrawal) := by
        rw [flushPendingOutput_eq st]
    _ = OpResult.andThen (none,
          { st with
              txOutput := none
              txInQueueItem := none
              meshTxBuilderBody := { st.meshTxBuilderBody with
                outputs := st.meshTxBuilderBody.outputs ++ st.txOutput.toList
                inputs := st.meshTxBuilderBody.inputs ++ st.txInQueueItem.toList } })
          (fun s2 => ((ok (flushPendingCollateral s2)).andThen flushPendingMint).andThen
            flushPendingWithdrawal) := by
        rw [flushPendingInput_eq
          { st with
              txOutput := none
              meshTxBuilderBody.outputs :=
                st.meshTxBuilderBody.outputs ++ st.txOutput.toList } h1]
    _ = ((ok (flushPendingCollateral
          { st with
              txOutput := none
              txInQueueItem := none
              meshTxBuilderBody := { st.meshTxBuilderBody with
                outputs := st.meshTxBuilderBody.outputs ++ st.txOutput.toList
                inputs := st.meshTxBuilderBody.inputs ++ st.txInQueueItem.toList } })).andThen flushPendingMint).andThen
          flushPendingWithdrawal := rfl
    _ = (flushPendingMint
          { st with
              txOutput := none
              txInQueueItem := none
              collateralQueueItem := none
              meshTxBuilderBody := { st.meshTxBuilderBody with
                outputs := st.meshTxBuilderBody.outputs ++ st.txOutput.toList
                inputs := st.meshTxBuilderBody.inputs ++ st.txInQueueItem.toList
                collaterals :=
                  st.meshTxBuilderBody.collaterals ++ st.collateralQueueItem.toList } }).andThen
          flushPendingWithdrawal := by
        rw [flushPendingCollateral_eq
          { st with
              txOutput := none
              txInQueueItem := none
              meshTxBuilderBody := { st.meshTxBuilderBody with
                outputs := st.meshTxBuilderBody.outputs ++ st.txOutput.toList
                inputs := st.meshTxBuilderBody.inputs ++ st.txInQueueItem.toList } }]
        rfl
    _ = OpResult.andThen (none,
          { st with
              txOutput := none
              txInQueueItem := none
              collateralQueueItem := none
              mintItem := none
              meshTxBuilderBody := { st.meshTxBuilderBody with
                outputs := st.meshTxBuilderBody.outputs ++ st.txOutput.toList
                inputs := st.meshTxBuilderBody.inputs ++ st.txInQueueItem.toList
                collaterals :=
                  st.meshTxBuilderBody.collaterals ++ st.collateralQueueItem.toList
                mints := st.meshTxBuilderBody.mints ++ st.mintItem.toList } })
          flushPendingWithdrawal := by
        rw [flushPendingMint_eq
          { st with
              txOutput := none
              txInQueueItem := none
              collateralQueueItem := none
              meshTxBuilderBody := { st.meshTxBuilderBody with
                outputs := st.meshTxBuilderBody.outputs ++ st.txOutput.toList
                inputs := st.meshTxBuilderBody.inputs ++ st.txInQueueItem.toList
                collaterals :=
                  st.meshTxBuilderBody.collaterals ++ st.collateralQueueItem.toList } } h2]
    _ = flushPendingWithdrawal
          { st with
              txOutput := none
              txInQueueItem := none
              collateralQueueItem := none
              mintItem := none
              meshTxBuilderBody := { st.meshTxBuilderBody with
                outputs := st.meshTxBuilderBody.outputs ++ st.txOutput.toList
                inputs := st.meshTxBuilderBody.inputs ++ st.txInQueueItem.toList
                collaterals :=
                  st.meshTxBuilderBody.collaterals ++ st.collateralQueueItem.toList
                mints := st.meshTxBuilderBody.mints ++ st.mintItem.toList } } := rfl
    _ = (none,
          { st with
              txOutput := none
              txInQueueItem := none
              collateralQueueItem := none
              mintItem := none
              withdrawalItem := none
              meshTxBuilderBody := { st.meshTxBuilderBody with
                outputs := st.meshTxBuilderBody.outputs ++ st.txOutput.toList
                inputs := st.meshTxBuilderBody.inputs ++ st.txInQueueItem.toList
                collaterals :=
                  st.meshTxBuilderBody.collaterals ++ st.collateralQueueItem.toList
                mints := st.meshTxBuilderBody.mints ++ st.mintItem.toList
                withdrawals :=
                  st.meshTxBuilderBody.withdrawals ++ st.withdrawalItem.toList } }) := by
        rw [flushPendingWithdrawal_eq
          { st with
              txOutput := none
              txInQueueItem := none
              collateralQueueItem := none
              mintItem := none
              meshTxBuilderBody := { st.meshTxBuilderBody with
                outputs := st.meshTxBuilderBody.outputs ++ st.txOutput.toList
                inputs := st.meshTxBuilderBody.inputs ++ st.txInQueueItem.toList
                collaterals :=
                  st.meshTxBuilderBody.collaterals ++ st.collateralQueueItem.toList
                mints := st.meshTxBuilderBody.mints ++ st.mintItem.toList } } h3]

def stC7 : MeshTxBuilderCore :=
  { mkMeshTxBuilderCore with
      txOutput := some { address := "addr9", amount := [⟨"lovelace", 1000000⟩] }
      txInQueueItem := some (.script { txHash := "b7", txIndex := 1 }
        { scriptSource := some (.provided "c7" .V2)
          datumSource := some (.inline "b7" 1)
          redeemer := some { data := .mesh (.integer 7), exUnits := DEFAULT_REDEEMER_BUDGET } })
      collateralQueueItem := some { txIn := { txHash := "c7", txIndex := 7 } }
      mintItem := some
        { type := .Native
          policyId := "p7"
          assetName := "aa11"
          amount := 2
          scriptSource := some (.simple (.provided "n7")) }
      withdrawalItem := some (.scriptWithdrawal "stake_test1q7" "3000000"
        (some (.provided "w7" .V2))
        (some { data := .mesh (.integer 1), exUnits := DEFAULT_REDEEMER_BUDGET })) }

/-- Witness for C7: a concrete state with all five slots populated and
complete flushes them all without error. -/
theorem claim7_witness :
    pendingInputOk stC7 = true ∧ pendingMintOk stC7 = true ∧
    pendingWithdrawalOk stC7 = true ∧
    stC7.queueAllLastItem = (none,
      { stC7 with
          txOutput := none
          txInQueueItem := none
          collateralQueueItem := none
          mintItem := none
          withdrawalItem := none
          meshTxBuilderBody := { stC7.meshTxBuilderBody with
            outputs := stC7.meshTxBuilderBody.outputs ++ stC7.txOutput.toList
            inputs := stC7.meshTxBuilderBody.inputs ++ stC7.txInQueueItem.toList
            collaterals := stC7.meshTxBuilderBody.collaterals ++ stC7.collateralQueueItem.toList
            mints := stC7.meshTxBuilderBody.mints ++ stC7.mintItem.toList
            withdrawals := stC7.meshTxBuilderBody.withdrawals ++ stC7.withdrawalItem.toList } }) :=
  ⟨rfl, rfl, rfl, (claim7_queueAllLastItem_correct stC7 rfl rfl rfl).2⟩

lemma scaleBudget_default (b : Budget) :
    scaleBudget defaultTxEvaluationMultiplier b =
      { mem := 11 * b.mem / 10, steps := 11 * b.steps / 10 } := by
  unfold scaleBudget defaultTxEvaluationMultiplier
  congr 1
  · have hm : ((b.mem : ℚ) * (11 / 10)) =
        (((11 * (b.mem : ℤ)) : ℤ) : ℚ) / ((10 : ℕ) : ℚ) := by
      push_cast
      ring
    rw [hm, Rat.floor_intCast_div_natCast]
    omega
  · have hs : ((b.steps : ℚ) * (11 / 10)) =
        (((11 * (b.steps : ℤ)) : ℤ) : ℚ) / ((10 : ℕ) : ℚ) := by
      push_cast
      ring
    rw [hs, Rat.floor_intCast_div_natCast]
    omega

/-- Whether the slot named by an action's tag and index matches: the
indexed entry exists, is of the corresponding script type, and carries a
redeemer. -/
def evaluationSlotMatches (body : MeshTxBuilderBody) (a : Action) : Bool :=
  match a.tag with
  | .SPEND =>
    match body.inputs[a.index]? with
    | some (.script _ s) => s.redeemer.isSome
    | _ => false
  | .MINT =>
    match body.mints[a.index]? with
    | some m => decide (m.type = .Plutus) && m.redeemer.isSome
    | none => false
  | .CERT =>
    match body.certificates[a.index]? with
    | some (.scriptCertificate _ _ (some _)) => true
    | _ => false
  | .REWARD =>
    match body.withdrawals[a.index]? with
    | some (.scriptWithdrawal _ _ _ (some _)) => true
    | _ => false

/-- The action's index is a valid position in the body list named by its
tag. -/
def tagIndexValid (body : MeshTxBuilderBody) (a : Action) : Prop :=
  match a.tag with
  | .SPEND => a.index < body.inputs.length
  | .MINT => a.index < body.mints.length
  | .CERT => a.index < body.certificates.length
  | .REWARD => a.index < body.withdrawals.length

/-- C3: with the default multiplier, an evaluation action whose index is
valid and whose slot matches its tag (with a redeemer present) overwrites
that redeemer's `exUnits` with `⌊budget × 1.1⌋ = ⟨11·mem/10, 11·steps/10⟩`
(only that entry changes); a non-matching slot is skipped silently with
the body unchanged; `updateRedeemer` applies the actions in list order. -/
theorem claim3_updateRedeemer_correct (body : MeshTxBuilderBody) (a : Action) :
    (∀ p s r, a.tag = .SPEND → body.inputs[a.index]? = some (.script p s) →
      s.redeemer = some r →
      MeshTxBuilderCore.applyEvaluation defaultTxEvaluationMultiplier body a =
        (none, { body with
          inputs := body.inputs.set a.index
              (.script p { s with redeemer := some { r with exUnits :=
                { mem := 11 * a.budget.mem / 10, steps := 11 * a.budget.steps / 10 } } }) })) ∧
    (∀ m r, a.tag = .MINT → body.mints[a.index]? = some m → m.type = .Plutus →
      m.redeemer = some r →
      MeshTxBuilderCore.applyEvaluation defaultTxEvaluationMultiplier body a =
        (none, { body with
          mints := body.mints.set a.index
              { m with redeemer := some { r with exUnits :=
                { mem := 11 * a.budget.mem / 10, steps := 11 * a.budget.steps / 10 } } } })) ∧
    (∀ ct ss r, a.tag = .CERT →
      body.certificates[a.index]? = some (.scriptCertificate ct ss (some r)) →
      MeshTxBuilderCore.applyEvaluation defaultTxEvaluationMultiplier body a =
        (none, { body with
          certificates := body.certificates.set a.index
              (.scriptCertificate ct ss (some { r with exUnits :=
                { mem := 11 * a.budget.mem / 10, steps := 11 * a.budget.steps / 10 } })) })) ∧
    (∀ addr coin ss r, a.tag = .REWARD →
      body.withdrawals[a.index]? = some (.scriptWithdrawal addr coin ss (some r)) →
      MeshTxBuilderCore.applyEvaluation defaultTxEvaluationMultiplier body a =
        (none, { body with
          withdrawals := body.withdrawals.set a.index
              (.scriptWithdrawal addr coin ss (some { r with exUnits :=
                { mem := 11 * a.budget.mem / 10, steps := 11 * a.budget.steps / 10 } })) })) ∧
    (tagIndexValid body a → evaluationSlotMatches body a = false →
      MeshTxBuilderCore.applyEvaluation defaultTxEvaluationMultiplier body a =
        (none, body)) ∧
    (∀ rest b2,
      MeshTxBuilderCore.applyEvaluation defaultTxEvaluationMultiplier body a = (none, b2) →
      MeshTxBuilderCore.updateRedeemer defaultTxEvaluationMultiplier body (a :: rest) =
        MeshTxBuilderCore.updateRedeemer defaultTxEvaluationMultiplier b2 rest) := by
  obtain ⟨tag, index, budget⟩ := a
  refine ⟨?_, ?_, ?_, ?_, ?_, ?_⟩
  · intro p s r ht h hr
    cases ht
    simp [MeshTxBuilderCore.applyEvaluation, h, hr, scaleBudget_default]
  · intro m r ht h htype hr
    cases ht
    simp [MeshTxBuilderCore.applyEvaluation, h, htype, hr, scaleBudget_default]
  · intro ct ss r ht h
    cases ht
    simp [MeshTxBuilderCore.applyEvaluation, h, scaleBudget_default]
  · intro addr coin ss r ht h
    cases ht
    simp [MeshTxBuilderCore.applyEvaluation, h, scaleBudget_default]
  · intro hvalid hmatch
    cases tag with
    | SPEND =>
      unfold tagIndexValid at hvalid
      cases hslot : body.inputs[index]? with
      | none =>
        have := List.getElem?_eq_getElem hvalid
        simp_all
      | some i =>
        cases i with
        | pubKey p => simp [MeshTxBuilderCore.applyEvaluation, hslot]
        | simpleScript p s => simp [MeshTxBuilderCore.applyEvaluation, hslot]
        | script p s =>
          cases hr : s.redeemer with
          | none => simp [MeshTxBuilderCore.applyEvaluation, hslot, hr]
          | some r =>
            exfalso
            simp [evaluationSlotMatches, hslot, hr] at hmatch
    | MINT =>
      unfold tagIndexValid at hvalid
      cases hslot : body.mints[index]? with
      | none =>
        have := List.getElem?_eq_getElem hvalid
        simp_all
      | some m =>
        cases htype : m.type with
        | Native => simp [MeshTxBuilderCore.applyEvaluation, hslot, htype]
        | Plutus =>
          cases hr : m.redeemer with
          | none => simp [MeshTxBuilderCore.applyEvaluation, hslot, htype, hr]
          | some r =>
            exfalso
            simp [evaluationSlotMatches, hslot, htype, hr] at hmatch
    | CERT =>
      unfold tagIndexValid at hvalid
      cases hslot : body.certificates[index]? with
      | none =>
        have := List.getElem?_eq_getElem hvalid
        simp_all
      | some cert =>
        cases cert with
        | basic ct => simp [MeshTxBuilderCore.applyEvaluation, hslot]
        | simpleScriptCertificate ct ss => simp [MeshTxBuilderCore.applyEvaluation, hslot]
        | scriptCertificate ct ss r =>
          cases r with
          | none => simp [MeshTxBuilderCore.applyEvaluation, hslot]
          | some r0 =>
            exfalso
            simp [evaluationSlotMatches, hslot] at hmatch
    | REWARD =>
      unfold tagIndexValid at hvalid
      cases hslot : body.withdrawals[index]? with
      | none =>
        have := List.getElem?_eq_getElem hvalid
        simp_all
      | some w =>
        cases w with
        | pubKeyWithdrawal addr coin => simp [MeshTxBuilderCore.applyEvaluation, hslot]
        | simpleScriptWithdrawal addr coin ss => simp [MeshTxBuilderCore.applyEvaluation, hslot]
        | scriptWithdrawal addr coin ss r =>
          cases r with
          | none => simp [MeshTxBuilderCore.applyEvaluation, hslot]
          | some r0 =>
            exfalso
            simp [evaluationSlotMatches, hslot] at hmatch
  · intro rest b2 h
    simp [MeshTxBuilderCore.updateRedeemer, h]

def rS4 : Redeemer := { data := .mesh (.integer 42), exUnits := DEFAULT_REDEEMER_BUDGET }

def sS4 : ScriptTxInParameter :=
  { scriptSource := some (.provided "c0de" .V2)
    datumSource := some (.inline "bb" 1)
    redeemer := some rS4 }

def bodyS4 : MeshTxBuilderBody :=
  { emptyTxBuilderBody with
      inputs := [.script { txHash := "bb", txIndex := 1 } sS4,
                 .pubKey { txHash := "cc", txIndex := 0 }] }

def aS4 : Action := { tag := .SPEND, index := 0, budget := { mem := 1000, steps := 2000 } }

/-- Witness for C3: the spec's S4 scenario — a SPEND action at index 0
with budget `{mem 1000, steps 2000}` sets the first input's redeemer
`exUnits` to `{mem 1100, steps 2200}` and leaves the second input
untouched. -/
theorem claim3_witness :
    aS4.tag = .SPEND ∧
    bodyS4.inputs[aS4.index]? = some (.script { txHash := "bb", txIndex := 1 } sS4) ∧
    sS4.redeemer = some rS4 ∧
    MeshTxBuilderCore.applyEvaluation defaultTxEvaluationMultiplier bodyS4 aS4 =
      (none, { bodyS4 with
        inputs := bodyS4.inputs.set 0
            (.script { txHash := "bb", txIndex := 1 }
              { sS4 with redeemer := some { rS4 with exUnits := { mem := 1100, steps := 2200 } } }) }) :=
  ⟨rfl, rfl, rfl, by
    have h := (claim3_updateRedeemer_correct bodyS4 aS4).1
      { txHash := "bb", txIndex := 1 } sS4 rS4 rfl rfl rfl
    simpa using h⟩

def uA : UTxO :=
  { input := { txHash := "aa", outputIndex := 0 }
    output := { address := "addr1", amount := [{ unit := "lovelace", quantity := 10000000 }] } }

def uB : UTxO :=
  { input := { txHash := "bb", outputIndex := 1 }
    output := { address := "addr2"
                amount := [{ unit := "lovelace", quantity := 2000000 },
                           { unit := "ff00", quantity := 1 }] } }

def stC2 : MeshTxBuilderCore :=
  { mkMeshTxBuilderCore with
      meshTxBuilderBody :=
        { emptyTxBuilderBody with
            outputs := [{ address := "addr3"
                          amount := [{ unit := "ff00", quantity := 1 },
                                     { unit := "lovelace", quantity := 5000000 }] }]
            extraInputs := [uA, uB]
            selectionConfig :=
              { threshold := 0, strategy := .keepRelevant, includeTxFees := true } } }

/-- C2 (code bug): with `strategy = keepRelevant`, the source switch falls
through (missing `break`) into the `largestFirst` case, whose assignment
overwrites the keepRelevant selection.  At this concrete state the
keepRelevant strategy selects `[uB, uA]` (it must keep `uB`, the only
holder of the required unit `"ff00"`), yet `addUtxosFromSelection` appends
only `largestFirst`'s selection `[uA]` — not the keepRelevant result the
claim (and spec) require. -/
theorem claim2_fallthrough_eval :
    stC2.meshTxBuilderBody.selectionConfig.strategy = .keepRelevant ∧
    computeRequiredAssets stC2.meshTxBuilderBody = [("ff00", 1), ("lovelace", 5000000)] ∧
    UtxoSelection.keepRelevant { threshold := 0, includeTxFees := true }
      (computeRequiredAssets stC2.meshTxBuilderBody)
      stC2.meshTxBuilderBody.extraInputs = .ok [uB, uA] ∧
    UtxoSelection.largestFirst { threshold := 0, includeTxFees := true }
      (computeRequiredAssets stC2.meshTxBuilderBody)
      stC2.meshTxBuilderBody.extraInputs = .ok [uA] ∧
    stC2.addUtxosFromSelection = (none,
      { stC2 with
          meshTxBuilderBody.inputs :=
            [.pubKey { txHash := "aa", txIndex := 0
                       amount := some [{ unit := "lovelace", quantity := 10000000 }]
                       address := some "addr1" }] }) ∧
    ([uA] : List UTxO) ≠ [uB, uA] := by
  refine ⟨rfl, by decide, rfl, rfl, rfl, by decide⟩

end Mesh
